import Mathlib

/-!
Verification development for the ModMail bot (`cogs/modmail.py`,
`utils/config.py`).

The cog keeps a per-user session mapping
`modmail_sessions : user_id ↦ { state : "open" | "locked" | "resolved",
reset_at : ISO-8601 string or None }`, persists it to a JSON file after
mutations, and relays user DMs to a staff channel behind a confirmation
view.  We embed the handlers as pure functions from an explicit cog state
to a new state paired with a trace of effects (sends, in-memory
mutations, durability writes), timestamps as integers on a time axis
(`datetime` values are totally ordered instants; unparseable strings are
carried as an `invalid` constructor so that `datetime.fromisoformat`
failure is `none`), and the session file as an association list keyed by
decimal digit strings.
-/

namespace ModMail

/-- A stored timestamp string: either a parseable ISO-8601 string, which
we identify with the instant it denotes, or an unparseable string kept
verbatim.  `datetime.isoformat` always yields a parseable string. -/
inductive TimeVal
  | valid : Int → TimeVal
  | invalid : String → TimeVal
deriving DecidableEq, Repr

/-- `datetime.datetime.fromisoformat` wrapped in `try/except`:
parseable strings yield their instant, anything else yields `None`. -/
def fromisoformat : TimeVal → Option Int
  | .valid t => some t
  | .invalid _ => none

/-- `datetime.isoformat` of an instant. -/
def isoformat (t : Int) : TimeVal := .valid t

/-- Python truthiness of an `Optional[int]` (both `None` and `0` are
falsy, which is how `if not self.modmail_channel_id` behaves). -/
def truthyOptNat : Option Nat → Bool
  | none => false
  | some n => n != 0

/-- Python truthiness of the stored `reset_at` value: `None` and the
empty string are falsy, every other string is truthy. -/
def truthyOptTime : Option TimeVal → Bool
  | none => false
  | some (.valid _) => true
  | some (.invalid s) => s != ""

/-- One session record, as stored per user id:
`{ 'state': 'open'|'locked'|'resolved', 'reset_at': ISO8601 or None }`. -/
structure Session where
  state : String
  reset_at : Option TimeVal
deriving DecidableEq, Repr

/-- The in-memory session mapping, a Python dict keyed by user id.  We
model it as an association list: lookup finds the first binding,
assignment overwrites in place or appends, `pop` removes the binding. -/
abbrev SessionMap : Type := List (Nat × Session)

/-- Dict lookup `d.get(k)`. -/
def mapGet : SessionMap → Nat → Option Session
  | [], _ => none
  | (k, v) :: tl, u => if k = u then some v else mapGet tl u

/-- Dict assignment `d[k] = v`: overwrite in place, else append. -/
def mapInsert : SessionMap → Nat → Session → SessionMap
  | [], u, s => [(u, s)]
  | (k, v) :: tl, u, s =>
    if k = u then (k, s) :: tl else (k, v) :: mapInsert tl u s

/-- Dict removal `d.pop(k, None)` (no-op when the key is absent). -/
def mapErase : SessionMap → Nat → SessionMap
  | [], _ => []
  | (k, v) :: tl, u => if k = u then tl else (k, v) :: mapErase tl u

/-- What kind of message an outbound payload is (which embed / text the
source builds at that point). -/
inductive MsgKind
  | guidelines
  | confirmPrompt
  | lockedNotice
  | sentNotice
  | relayEmbed
  | userIdNote
  | modReply
  | infoNotice
  | resolvedNotify
deriving DecidableEq, Repr

/-- An outbound payload: its kind, the text the source puts in the embed
description (or message content), and the attachment files passed to the
send call. -/
structure Payload where
  kind : MsgKind
  text : String
  files : List String
deriving DecidableEq, Repr

/-- One observable step of a handler, in program order.  `sendUser`,
`sendChannel`, `respondInteraction`, `ctxSend` and `followupSend` are
awaited network calls (suspension and failure points); `mutate m`
records that the in-memory mapping just became `m`; `persist m` is a
call to `_persist_sessions_to_file` writing snapshot `m`. -/
inductive Effect
  | sendUser : Nat → Payload → Effect
  | sendChannel : Nat → Payload → Effect
  | respondInteraction : Nat → Payload → Effect
  | ctxSend : String → Effect
  | followupSend : String → Effect
  | mutate : SessionMap → Effect
  | persist : SessionMap → Effect
deriving DecidableEq, Repr

/-- The attachment files an effect actually sends out (empty for
non-send effects). -/
def Effect.sentFiles : Effect → List String
  | .sendUser _ p => p.files
  | .sendChannel _ p => p.files
  | .respondInteraction _ p => p.files
  | _ => []

/-- Whether an effect is a DM notice to the end user. -/
def Effect.isUserNotice : Effect → Bool
  | .sendUser _ _ => true
  | _ => false

/-- `mutationsPersisted tr` holds when every in-memory mutation recorded
in `tr` is immediately followed by a durability write of exactly the
mutated mapping (no send or other effect in between). -/
def mutationsPersisted : List Effect → Bool
  | [] => true
  | .mutate m :: .persist m' :: tl =>
    decide (m = m') && mutationsPersisted (.persist m' :: tl)
  | .mutate _ :: _ => false
  | _ :: tl => mutationsPersisted tl

/-- An inbound platform message event, with the fields `on_message`
reads (plus its attachments, which the source never reads). -/
structure Message where
  authorId : Nat
  authorBot : Bool
  inGuild : Bool
  content : String
  attachments : List String
deriving DecidableEq, Repr

/-- A resolved channel object; `isText` is `isinstance(c, TextChannel)`. -/
structure Channel where
  id : Nat
  isText : Bool
deriving DecidableEq, Repr

/-- The configuration fields the cog reads (`utils/config.py`). -/
structure Config where
  modmail_channel_id : Option Nat
  modmail_reset_seconds : Int
deriving DecidableEq, Repr

/-- A `Config` built with pydantic defaults for the modmail fields:
`modmail_channel_id = None`, `modmail_reset_seconds = Field(default=600)`. -/
def defaultConfig : Config := ⟨none, 600⟩

/-- The cog state: configured staff channel id, reset delay, and the
session mapping. -/
structure Cog where
  modmail_channel_id : Option Nat
  RESET_DELAY_SECONDS : Int
  modmail_sessions : SessionMap
deriving DecidableEq, Repr

/-- `ModMail.__init__`: copies `modmail_channel_id` and
`modmail_reset_seconds` out of the config and starts from the loaded
session mapping. -/
def cogInit (config : Config) (loaded : SessionMap) : Cog :=
  ⟨config.modmail_channel_id, config.modmail_reset_seconds, loaded⟩

/-- Description text of the guidelines embed sent on first contact. -/
def guidelineText : String :=
  "__How to use ModMail__\nSend your message to the moderators below. " ++
  "You have only **one message**. After you send it, modmail will be " ++
  "locked until a moderator replies.\n\n__Tips__\n" ++
  "- Include all relevant details, links, and timestamps in this message.\n" ++
  "- Do not send multiple follow-ups - wait for a moderator to reply.\n\n" ++
  "__Privacy__\nModerators will see your username and ID only; " ++
  "do not share sensitive credentials."

/-- Description text of the confirmation prompt for a given message. -/
def confirmText (content : String) : String :=
  "Do you want to send this message to the moderators?\n\n**Message:** " ++
  content

/-- Description text of the "ModMail Locked" embed. -/
def lockedText : String :=
  "Your modmail is currently locked. Please wait for a moderator to " ++
  "reply before sending more messages."

/-- Description text of the "Message Sent" embed on confirm. -/
def sentText : String :=
  "Your message was delivered to the moderators. They will respond as " ++
  "soon as possible. Your session is locked for security. Please wait " ++
  "for a moderator to respond before sending more messages."

/-- Suffix appended to the staff response in the moderator-reply DM. -/
def replySuffix : String :=
  "Your session is now resolved and open if you have any further " ++
  "queries. This session will reset after a short period of inactivity."

/-- Description text of the post-reply info DM. -/
def infoText : String :=
  "A Moderator has responded. If you need to send another message your " ++
  "session is open. This session will reset after a short period of " ++
  "inactivity."

/-- Description text of the post-reply info DM in the slash variant. -/
def infoTextSlash : String :=
  "A moderator has responded. If you need to send another message, " ++
  "your session is open. This session will reset after a short period " ++
  "of inactivity."

/-- The expiry pre-check at the top of `on_message`: when the session is
`'resolved'` with a truthy `reset_at` that parses to an instant `r` and
`now >= r`, the session is popped and the mapping persisted; otherwise
nothing happens.  Returns the updated cog, the session value the rest of
the handler sees, and the effects emitted. -/
def expiryCheck (cog : Cog) (user_id : Nat) (now : Int)
    (session : Option Session) : Cog × Option Session × List Effect :=
  match session with
  | some s =>
    if s.state == "resolved" && truthyOptTime s.reset_at then
      let parsed : Option Int :=
        match s.reset_at with
        | some tv => fromisoformat tv
        | none => none
      match parsed with
      | some r =>
        if now ≥ r then
          let m1 := mapErase cog.modmail_sessions user_id
          ({ cog with modmail_sessions := m1 }, none,
           [.mutate m1, .persist m1])
        else (cog, session, [])
      | none => (cog, session, [])
    else (cog, session, [])
  | none => (cog, session, [])

/-- `ModMail.on_message` (success path of every awaited send): guard
guild/bot messages and an unconfigured channel, run the expiry
pre-check, then dispatch on the session state. -/
def on_message (cog0 : Cog) (message : Message) (now : Int) :
    Cog × List Effect :=
  if message.inGuild || message.authorBot then (cog0, [])
  else if !truthyOptNat cog0.modmail_channel_id then (cog0, [])
  else
    let user_id := message.authorId
    let ec := expiryCheck cog0 user_id now (mapGet cog0.modmail_sessions user_id)
    let cog := ec.1
    let tr1 := ec.2.2
    match ec.2.1 with
    | none =>
      let m2 := mapInsert cog.modmail_sessions user_id ⟨"open", none⟩
      ({ cog with modmail_sessions := m2 },
       tr1 ++ [.sendUser user_id ⟨.guidelines, guidelineText, []⟩,
               .mutate m2, .persist m2])
    | some s =>
      if s.state == "resolved" then
        (cog, tr1 ++ [.sendUser user_id
          ⟨.confirmPrompt, confirmText message.content, []⟩])
      else if s.state == "open" then
        (cog, tr1 ++ [.sendUser user_id
          ⟨.confirmPrompt, confirmText message.content, []⟩])
      else if s.state == "locked" then
        (cog, tr1 ++ [.sendUser user_id ⟨.lockedNotice, lockedText, []⟩])
      else (cog, tr1)

/-- `bot.get_channel(self.modmail_channel_id)` followed by the
`channel and isinstance(channel, TextChannel)` test is expressed with
this resolver over the optional configured id. -/
def resolveChannel (get_channel : Nat → Option Channel) :
    Option Nat → Option Channel
  | none => none
  | some c => get_channel c

/-- `ConfirmView.confirm` (success path of every awaited call): ignore
presses by anyone but the original user; relay the stored message
content (only) to the staff channel when it resolves to a text channel;
always answer the interaction with the "Message Sent" embed, lock the
session and persist. -/
def confirm (cog : Cog) (get_channel : Nat → Option Channel)
    (view_user : Nat) (message_content : String) (interaction_user : Nat) :
    Cog × List Effect :=
  if interaction_user != view_user then (cog, [])
  else
    let channel := resolveChannel get_channel cog.modmail_channel_id
    let relayTr : List Effect :=
      match channel with
      | some ch =>
        if ch.isText then
          [.sendChannel ch.id ⟨.relayEmbed, message_content, []⟩,
           .sendChannel ch.id
             ⟨.userIdNote, "User ID: " ++ toString view_user, []⟩]
        else []
      | none => []
    let m' := mapInsert cog.modmail_sessions view_user ⟨"locked", none⟩
    ({ cog with modmail_sessions := m' },
     relayTr ++ [.respondInteraction view_user ⟨.sentNotice, sentText, []⟩,
                 .mutate m', .persist m'])

/-- `ConfirmView.on_timeout`: pop the user's session and persist. -/
def on_timeout (cog : Cog) (view_user : Nat) : Cog × List Effect :=
  let m' := mapErase cog.modmail_sessions view_user
  ({ cog with modmail_sessions := m' }, [.mutate m', .persist m'])

/-- The channel notification both reply commands end with: when the
configured channel id is truthy and resolves to a text channel, post the
"ModMail Resolved" embed there. -/
def notifyChannelTr (cog : Cog) (get_channel : Nat → Option Channel)
    (response : String) : List Effect :=
  if truthyOptNat cog.modmail_channel_id then
    match resolveChannel get_channel cog.modmail_channel_id with
    | some ch =>
      if ch.isText then [.sendChannel ch.id ⟨.resolvedNotify, response, []⟩]
      else []
    | none => []
  else []

/-- `ModMail.reply_modmail` (prefix command, success path, user found):
DM the reply, acknowledge to the moderator, schedule the reset by
setting the session to `'resolved'` with
`reset_at = now + RESET_DELAY_SECONDS`, DM the info embed, persist, then
notify the staff channel. -/
def reply_modmail (cog : Cog) (get_channel : Nat → Option Channel)
    (user_id : Nat) (response : String) (now : Int) : Cog × List Effect :=
  let reset_at := now + cog.RESET_DELAY_SECONDS
  let m' := mapInsert cog.modmail_sessions user_id
    ⟨"resolved", some (isoformat reset_at)⟩
  ({ cog with modmail_sessions := m' },
   [.sendUser user_id ⟨.modReply, response ++ replySuffix, []⟩,
    .ctxSend "Reply sent.",
    .mutate m',
    .sendUser user_id ⟨.infoNotice, infoText, []⟩,
    .persist m'] ++ notifyChannelTr cog get_channel response)

/-- `ModMail.reply_modmail_slash` (success path, permitted caller): same
transition as the prefix command; the moderator acknowledgement is a
deferred followup sent last. -/
def reply_modmail_slash (cog : Cog) (get_channel : Nat → Option Channel)
    (user_id : Nat) (response : String) (now : Int) : Cog × List Effect :=
  let reset_at := now + cog.RESET_DELAY_SECONDS
  let m' := mapInsert cog.modmail_sessions user_id
    ⟨"resolved", some (isoformat reset_at)⟩
  ({ cog with modmail_sessions := m' },
   [.sendUser user_id ⟨.modReply, response, []⟩,
    .mutate m',
    .sendUser user_id ⟨.infoNotice, infoTextSlash, []⟩,
    .persist m'] ++ notifyChannelTr cog get_channel response
   ++ [.followupSend "Reply sent."])

/-- The whole confirm-and-relay path for one inbound message: the
`on_message` handler constructs `ConfirmView(self, message.author,
message.content)` — only the text content is captured — and the user
then presses Confirm. -/
def confirmFlow (cog : Cog) (get_channel : Nat → Option Channel)
    (message : Message) (now : Int) : Cog × List Effect :=
  let r1 := on_message cog message now
  let r2 := confirm r1.1 get_channel message.authorId message.content
    message.authorId
  (r2.1, r1.2 ++ r2.2)

/-- Python `str(k)` of a user id, as its list of decimal digits, most
significant first (`str(0) = "0"`). -/
def pyStr (n : Nat) : List Nat :=
  if n = 0 then [0] else (Nat.digits 10 n).reverse

/-- Python `int(k)` on a digit string, wrapped in `try/except`: a
non-empty all-decimal-digit string parses to its value, anything else
raises (modelled as `none`). -/
def pyInt : List Nat → Option Nat
  | ds =>
    if ds.isEmpty then none
    else if ds.all (fun d => d < 10) then some (Nat.ofDigits 10 ds.reverse)
    else none

/-- `ModMail._persist_sessions_to_file`: serialize the whole mapping
with stringified keys (`{str(k): v for k, v in sessions.items()}`),
overwriting the file. -/
def _persist_sessions_to_file (m : SessionMap) : List (List Nat × Session) :=
  m.map (fun p => (pyStr p.1, p.2))

/-- One iteration of the load loop: convert the key back with `int(k)`
and assign into the mapping; an entry whose key fails to parse is
skipped individually (the `except` branch only logs). -/
def loadStep (acc : SessionMap) (p : List Nat × Session) : SessionMap :=
  match pyInt p.1 with
  | some k => mapInsert acc k p.2
  | none => acc

/-- `ModMail._load_sessions_from_file` into an empty in-memory mapping:
iterate the file dict's items through `loadStep`. -/
def _load_sessions_from_file (file : List (List Nat × Session)) : SessionMap :=
  file.foldl loadStep []

/-- A mapping is well formed when no user id is bound twice. -/
def wellFormed (m : SessionMap) : Prop := (m.map Prod.fst).Nodup

instance : DecidablePred wellFormed := fun m =>
  inferInstanceAs (Decidable (m.map Prod.fst).Nodup)

/-- Outcome of one invocation of the underlying send callable:
success, `discord.errors.HTTPException` with its `status`, optional
`retry_after` advisory and error `code`, or any other exception. -/
inductive SendOutcome
  | ok
  | httpExc : Nat → Option ℚ → Nat → SendOutcome
  | otherExc
deriving DecidableEq, Repr

/-- Observable steps of `_send_with_retry`: an invocation of the send
callable on a given attempt index, a successful delivery on that
attempt, or an `asyncio.sleep` of the computed backoff. -/
inductive RetryEvent
  | call : Nat → RetryEvent
  | deliver : Nat → RetryEvent
  | sleep : ℚ → RetryEvent
deriving DecidableEq, Repr

/-- How `_send_with_retry` returns to its caller: the awaited send's
result, or the exception it re-raises, or falling off the loop (only
possible with a zero retry cap, when Python returns `None`). -/
inductive RetryResult
  | delivered
  | raised : SendOutcome → RetryResult
  | fellThrough
deriving DecidableEq, Repr

/-- Whether a retry event is an invocation of the send callable. -/
def RetryEvent.isCall : RetryEvent → Bool
  | .call _ => true
  | _ => false

/-- Whether a retry event is a successful delivery. -/
def RetryEvent.isDeliver : RetryEvent → Bool
  | .deliver _ => true
  | _ => false

/-- The loop body of `_send_with_retry`, with `fuel` the number of
attempts left (so the Python guard `attempt < max_retries - 1` reads
"more fuel remains after this attempt") and `attempt` the current
attempt index.  On a 429 with retries left, the wait is the truthy
`retry_after` advisory if any, else `2 ** attempt + random.uniform(0,1)`
(the jitter draw is a parameter). -/
def retryFrom (behavior : Nat → SendOutcome) (jitter : Nat → ℚ) :
    Nat → Nat → List RetryEvent × RetryResult
  | 0, _ => ([], .fellThrough)
  | fuel + 1, attempt =>
    match behavior attempt with
    | .ok => ([.call attempt, .deliver attempt], .delivered)
    | .httpExc status ra code =>
      if status == 429 && fuel != 0 then
        let wait : ℚ :=
          match ra with
          | some w => if w != 0 then w else 2 ^ attempt + jitter attempt
          | none => 2 ^ attempt + jitter attempt
        let tail := retryFrom behavior jitter fuel (attempt + 1)
        (.call attempt :: .sleep wait :: tail.1, tail.2)
      else ([.call attempt], .raised (.httpExc status ra code))
    | .otherExc => ([.call attempt], .raised .otherExc)

/-- `ModMail._send_with_retry` with its default `max_retries=3`, run
against a send whose outcome on attempt `a` is `behavior a` and a jitter
draw `jitter a` for attempt `a`. -/
def _send_with_retry (behavior : Nat → SendOutcome) (jitter : Nat → ℚ) :
    List RetryEvent × RetryResult :=
  retryFrom behavior jitter 3 0

/-- A throttle-throttle-success send used to instantiate retry claims:
attempt 0 is a 429 with a 5-second advisory, attempt 1 a 429 with no
advisory, attempt 2 succeeds. -/
def throttleTwiceBehavior : Nat → SendOutcome := fun a =>
  if a = 0 then .httpExc 429 (some 5) 11
  else if a = 1 then .httpExc 429 none 12
  else .ok

/-- A send throttled on every attempt, with no advisory wait. -/
def alwaysThrottledBehavior : Nat → SendOutcome := fun a =>
  .httpExc 429 none a

/-- A fixed jitter draw of one half for every attempt. -/
def halfJitter : Nat → ℚ := fun _ => 1 / 2

theorem mutationsPersisted_nil : mutationsPersisted [] = true := rfl

theorem mutationsPersisted_sendUser (u : Nat) (p : Payload) (l : List Effect) :
    mutationsPersisted (.sendUser u p :: l) = mutationsPersisted l := rfl

theorem mutationsPersisted_sendChannel (c : Nat) (p : Payload)
    (l : List Effect) :
    mutationsPersisted (.sendChannel c p :: l) = mutationsPersisted l := rfl

theorem mutationsPersisted_respond (u : Nat) (p : Payload) (l : List Effect) :
    mutationsPersisted (.respondInteraction u p :: l) = mutationsPersisted l :=
  rfl

theorem mutationsPersisted_ctxSend (s : String) (l : List Effect) :
    mutationsPersisted (.ctxSend s :: l) = mutationsPersisted l := rfl

theorem mutationsPersisted_followup (s : String) (l : List Effect) :
    mutationsPersisted (.followupSend s :: l) = mutationsPersisted l := rfl

theorem mutationsPersisted_persist (m : SessionMap) (l : List Effect) :
    mutationsPersisted (.persist m :: l) = mutationsPersisted l := rfl

theorem mutationsPersisted_mutate_persist (m : SessionMap) (l : List Effect) :
    mutationsPersisted (.mutate m :: .persist m :: l) =
      mutationsPersisted (.persist m :: l) := by
  simp [mutationsPersisted]

theorem mapGet_mapInsert_self (m : SessionMap) (k : Nat) (v : Session) :
    mapGet (mapInsert m k v) k = some v := by
  induction m with
  | nil => simp [mapInsert, mapGet]
  | cons hd tl ih =>
    by_cases h : hd.1 = k
    · simp [mapInsert, mapGet, h]
    · simp [mapInsert, mapGet, h, ih]

theorem pyInt_pyStr (n : Nat) : pyInt (pyStr n) = some n := by
  by_cases h : n = 0
  · subst h; rfl
  · have hne : Nat.digits 10 n ≠ [] := Nat.digits_ne_nil_iff_ne_zero.mpr h
    have h1 : ((Nat.digits 10 n).reverse).isEmpty = false := by
      simp [List.isEmpty_iff, hne]
    have h2 : ((Nat.digits 10 n).reverse).all (fun d => d < 10) = true := by
      rw [List.all_eq_true]
      intro d hd
      exact decide_eq_true
        (Nat.digits_lt_base (by norm_num) (List.mem_reverse.mp hd))
    simp [pyStr, pyInt, h, h1, h2, Nat.ofDigits_digits]

theorem mapInsert_eq_append (m : SessionMap) (k : Nat) (v : Session)
    (h : k ∉ m.map Prod.fst) : mapInsert m k v = m ++ [(k, v)] := by
  induction m with
  | nil => rfl
  | cons hd tl ih =>
    simp only [List.map_cons, List.mem_cons, not_or] at h
    cases hd with
    | mk k' v' =>
      simp only [mapInsert]
      rw [if_neg (fun hkk => h.1 hkk.symm), ih h.2]
      simp

theorem load_save_aux (m : SessionMap) :
    ∀ acc : SessionMap, ((acc ++ m).map Prod.fst).Nodup →
      List.foldl loadStep acc (_persist_sessions_to_file m) = acc ++ m := by
  induction m with
  | nil => intro acc _; simp [_persist_sessions_to_file]
  | cons hd tl ih =>
    intro acc hnd
    cases hd with
    | mk k v =>
      have hstep : loadStep acc (pyStr k, v) = acc ++ [(k, v)] := by
        have hk : k ∉ acc.map Prod.fst := by
          simp only [List.map_append, List.map_cons,
            List.nodup_append] at hnd
          intro hmem
          exact hnd.2.2 hmem (List.mem_cons_self k _)
        simp only [loadStep, pyInt_pyStr]
        exact mapInsert_eq_append acc k v hk
      simp only [_persist_sessions_to_file, List.map_cons, List.foldl_cons,
        hstep]
      have hnd' : (((acc ++ [(k, v)]) ++ tl).map Prod.fst).Nodup := by
        simpa [List.append_assoc] using hnd
      have := ih (acc ++ [(k, v)]) hnd'
      simpa [_persist_sessions_to_file, List.append_assoc] using this

theorem expiryCheck_mp_append (cog : Cog) (uid : Nat) (now : Int)
    (s0 : Option Session) (l : List Effect) :
    mutationsPersisted ((expiryCheck cog uid now s0).2.2 ++ l) =
      mutationsPersisted l := by
  unfold expiryCheck
  cases s0 with
  | none => simp
  | some s =>
    dsimp only
    by_cases hres : (s.state == "resolved" && truthyOptTime s.reset_at) = true
    · rw [if_pos hres]
      cases hra : s.reset_at with
      | none => simp
      | some tv =>
        cases tv with
        | valid t =>
          by_cases hnow : now ≥ t
          · simp [fromisoformat, hnow, mutationsPersisted_mutate_persist,
              mutationsPersisted_persist]
          · simp [fromisoformat, hnow]
        | invalid str => simp [fromisoformat]
    · rw [if_neg hres]
      simp

theorem retryFrom_succ (b : Nat → SendOutcome) (j : Nat → ℚ) (fuel a : Nat) :
    retryFrom b j (fuel + 1) a =
      match b a with
      | .ok => ([.call a, .deliver a], .delivered)
      | .httpExc status ra code =>
        if status == 429 && fuel != 0 then
          (.call a :: .sleep
            (match ra with
             | some w => if w != 0 then w else 2 ^ a + j a
             | none => 2 ^ a + j a) ::
            (retryFrom b j fuel (a + 1)).1,
           (retryFrom b j fuel (a + 1)).2)
        else ([.call a], .raised (.httpExc status ra code))
      | .otherExc => ([.call a], .raised .otherExc) := rfl

theorem retryFrom_call_bound (b : Nat → SendOutcome) (j : Nat → ℚ) :
    ∀ fuel a,
      ((retryFrom b j fuel a).1.filter RetryEvent.isCall).length ≤ fuel := by
  intro fuel
  induction fuel with
  | zero => intro a; simp [retryFrom]
  | succ n ih =>
    intro a
    rw [retryFrom_succ]
    cases hb : b a with
    | ok => simp [RetryEvent.isCall]
    | httpExc status ra code =>
      dsimp only
      by_cases hcond : (status == 429 && n != 0) = true
      · rw [if_pos hcond]
        simp only [List.filter, RetryEvent.isCall, List.length_cons]
        have := ih (a + 1)
        omega
      · rw [if_neg hcond]
        simp [RetryEvent.isCall]
    | otherExc => simp [RetryEvent.isCall]

/-- C6: for every user whose session is in state `'locked'`, an inbound
message sends the user a "locked" notice, relays nothing to the staff
channel, and leaves the session mapping entirely unchanged (the returned
cog is the input cog, so the user's entry remains `'locked'` and no
other user's entry is touched). -/
theorem c6_locked_session_frame (cog : Cog) (msg : Message) (now : Int)
    (s : Session)
    (hg : msg.inGuild = false) (hb : msg.authorBot = false)
    (hc : truthyOptNat cog.modmail_channel_id = true)
    (hs : mapGet cog.modmail_sessions msg.authorId = some s)
    (hlk : s.state = "locked") :
    on_message cog msg now =
      (cog, [.sendUser msg.authorId ⟨.lockedNotice, lockedText, []⟩]) := by
  simp [on_message, expiryCheck, hg, hb, hc, hs, hlk]

/-- C6 witness: a concrete locked user, message and mapping. -/
theorem c6_locked_session_frame_witness :
    on_message ⟨some 5, 600, [(7, ⟨"locked", none⟩), (9, ⟨"open", none⟩)]⟩
        ⟨7, false, false, "again", []⟩ 50 =
      (⟨some 5, 600, [(7, ⟨"locked", none⟩), (9, ⟨"open", none⟩)]⟩,
       [.sendUser 7 ⟨.lockedNotice, lockedText, []⟩]) :=
  c6_locked_session_frame _ _ 50 ⟨"locked", none⟩ rfl rfl rfl rfl rfl

/-- C7 counterexample: with no modmail channel configured, a concrete
inbound DM produces no effect at all — in particular the user receives
no notice, contradicting the claim that the validation failure is
surfaced immediately to the user as a notice. -/
theorem c7_no_channel_no_notice_counterexample :
    ((on_message ⟨none, 600, []⟩ ⟨7, false, false, "help", []⟩ 0).2.any
      Effect.isUserNotice) = false := by decide

/-- C7 (amended): when no relay destination (modmail channel) is
configured, an inbound user message is dropped silently — the handler
returns with no relay attempted, but also with no notice to the user
and no other effect. -/
theorem c7_no_channel_silent_drop (cog : Cog) (msg : Message) (now : Int)
    (hg : msg.inGuild = false) (hb : msg.authorBot = false)
    (hc : truthyOptNat cog.modmail_channel_id = false) :
    on_message cog msg now = (cog, []) := by
  simp [on_message, hg, hb, hc]

/-- C7 witness: a concrete unconfigured cog and inbound DM. -/
theorem c7_no_channel_silent_drop_witness :
    on_message ⟨none, 600, [(9, ⟨"open", none⟩)]⟩ ⟨7, false, false, "help", []⟩ 3 =
      (⟨none, 600, [(9, ⟨"open", none⟩)]⟩, []) :=
  c7_no_channel_silent_drop _ _ 3 rfl rfl rfl

/-- C10: a `'resolved'` session whose `reset_at` is not a parseable
ISO-8601 timestamp is never expired by the inbound-message handler:
whatever the current time, the expiry check falls through without
effect (the `fromisoformat` failure is swallowed), the mapping is left
unchanged, and the message is handled as in the open reset window — a
confirmation prompt is sent. -/
theorem c10_unparseable_reset_never_expires (cog : Cog) (msg : Message)
    (now : Int) (str : String)
    (hg : msg.inGuild = false) (hb : msg.authorBot = false)
    (hc : truthyOptNat cog.modmail_channel_id = true)
    (hs : mapGet cog.modmail_sessions msg.authorId =
      some ⟨"resolved", some (.invalid str)⟩) :
    on_message cog msg now =
      (cog, [.sendUser msg.authorId
        ⟨.confirmPrompt, confirmText msg.content, []⟩]) := by
  by_cases hstr : str = ""
  · subst hstr
    simp [on_message, expiryCheck, hg, hb, hc, hs, truthyOptTime]
  · simp [on_message, expiryCheck, hg, hb, hc, hs, truthyOptTime,
      fromisoformat, hstr]

/-- C10 witness: a concrete resolved session whose stored `reset_at` is
the unparseable string `"not-a-date"`, read at a very late time. -/
theorem c10_unparseable_reset_never_expires_witness :
    on_message ⟨some 5, 600, [(7, ⟨"resolved", some (.invalid "not-a-date")⟩)]⟩
        ⟨7, false, false, "hi", []⟩ 1000000 =
      (⟨some 5, 600, [(7, ⟨"resolved", some (.invalid "not-a-date")⟩)]⟩,
       [.sendUser 7 ⟨.confirmPrompt, confirmText "hi", []⟩]) :=
  c10_unparseable_reset_never_expires _ _ 1000000 "not-a-date" rfl rfl rfl rfl

/-- C4: for a `'resolved'` session with a parseable `reset_at` instant
`t`: an inbound message with `now < t` behaves exactly like the
`'open'` state — the user is re-prompted for confirmation and the
session mapping is retained unchanged; with `t ≤ now` the session is
cleared from the mapping (and the cleared mapping persisted) and the
message is then handled as if no session existed — a fresh guideline
notice is sent and a new `'open'` session is created and persisted. -/
theorem c4_resolved_reset_window (cog : Cog) (msg : Message) (now t : Int)
    (hg : msg.inGuild = false) (hb : msg.authorBot = false)
    (hc : truthyOptNat cog.modmail_channel_id = true)
    (hs : mapGet cog.modmail_sessions msg.authorId =
      some ⟨"resolved", some (.valid t)⟩) :
    (now < t →
      on_message cog msg now =
        (cog, [.sendUser msg.authorId
          ⟨.confirmPrompt, confirmText msg.content, []⟩]))
    ∧ (t ≤ now →
      on_message cog msg now =
        (⟨cog.modmail_channel_id, cog.RESET_DELAY_SECONDS,
            mapInsert (mapErase cog.modmail_sessions msg.authorId)
              msg.authorId ⟨"open", none⟩⟩,
         [.mutate (mapErase cog.modmail_sessions msg.authorId),
          .persist (mapErase cog.modmail_sessions msg.authorId),
          .sendUser msg.authorId ⟨.guidelines, guidelineText, []⟩,
          .mutate (mapInsert (mapErase cog.modmail_sessions msg.authorId)
            msg.authorId ⟨"open", none⟩),
          .persist (mapInsert (mapErase cog.modmail_sessions msg.authorId)
            msg.authorId ⟨"open", none⟩)])) := by
  constructor
  · intro hlt
    simp [on_message, expiryCheck, hg, hb, hc, hs, truthyOptTime,
      fromisoformat, not_le.mpr hlt]
  · intro hge
    simp [on_message, expiryCheck, hg, hb, hc, hs, truthyOptTime,
      fromisoformat, hge]

/-- C4 witness: a concrete resolved session with `reset_at = 100`,
exercised at `now = 100` (the expired side, including the boundary
`now = reset_at`). -/
theorem c4_resolved_reset_window_witness :
    on_message ⟨some 5, 600, [(7, ⟨"resolved", some (.valid 100)⟩)]⟩
        ⟨7, false, false, "hi", []⟩ 100 =
      (⟨some 5, 600, [(7, ⟨"open", none⟩)]⟩,
       [.mutate [], .persist [],
        .sendUser 7 ⟨.guidelines, guidelineText, []⟩,
        .mutate [(7, ⟨"open", none⟩)], .persist [(7, ⟨"open", none⟩)]]) :=
  (c4_resolved_reset_window
    ⟨some 5, 600, [(7, ⟨"resolved", some (.valid 100)⟩)]⟩
    ⟨7, false, false, "hi", []⟩ 100 100 rfl rfl rfl rfl).2 (by decide)

/-- C5: a successful staff reply — through either the prefix command or
the slash command, for every user id and whatever the prior session
state — sets that user's session to `'resolved'` with `reset_at` equal
to the time of the reply plus the cog's configured reset delay; the
delay is copied from `Config.modmail_reset_seconds` at init, whose
pydantic default is 600 seconds. -/
theorem c5_staff_reply_sets_resolved :
    (∀ (cog : Cog) (gc : Nat → Option Channel) (uid : Nat) (resp : String)
        (now : Int),
      mapGet ((reply_modmail cog gc uid resp now).1).modmail_sessions uid =
        some ⟨"resolved", some (.valid (now + cog.RESET_DELAY_SECONDS))⟩)
    ∧ (∀ (cog : Cog) (gc : Nat → Option Channel) (uid : Nat) (resp : String)
        (now : Int),
      mapGet ((reply_modmail_slash cog gc uid resp now).1).modmail_sessions
          uid =
        some ⟨"resolved", some (.valid (now + cog.RESET_DELAY_SECONDS))⟩)
    ∧ (∀ (c : Config) (m : SessionMap),
        (cogInit c m).RESET_DELAY_SECONDS = c.modmail_reset_seconds)
    ∧ defaultConfig.modmail_reset_seconds = 600 := by
  refine ⟨?_, ?_, fun c m => rfl, rfl⟩
  · intro cog gc uid resp now
    simp [reply_modmail, isoformat, mapGet_mapInsert_self]
  · intro cog gc uid resp now
    simp [reply_modmail_slash, isoformat, mapGet_mapInsert_self]

/-- C9: when the user presses Confirm and the configured modmail
channel cannot be resolved (lookup returns nothing, or a non-text
channel), the confirm handler still answers with the "Message Sent"
success notice, still transitions the session to `'locked'` (and
persists), and relays nothing to staff. -/
theorem c9_confirm_unresolvable_channel (cog : Cog)
    (gc : Nat → Option Channel) (vu : Nat) (mc : String)
    (hur : ∀ ch, resolveChannel gc cog.modmail_channel_id = some ch →
      ch.isText = false) :
    confirm cog gc vu mc vu =
      (⟨cog.modmail_channel_id, cog.RESET_DELAY_SECONDS,
        mapInsert cog.modmail_sessions vu ⟨"locked", none⟩⟩,
       [.respondInteraction vu ⟨.sentNotice, sentText, []⟩,
        .mutate (mapInsert cog.modmail_sessions vu ⟨"locked", none⟩),
        .persist (mapInsert cog.modmail_sessions vu ⟨"locked", none⟩)]) := by
  cases hch : resolveChannel gc cog.modmail_channel_id with
  | none => simp [confirm, hch]
  | some ch => simp [confirm, hch, hur ch hch]

/-- C9 witness: the channel lookup finds nothing for the configured id. -/
theorem c9_confirm_unresolvable_channel_witness :
    confirm ⟨some 5, 600, [(7, ⟨"open", none⟩)]⟩ (fun _ => none) 7 "hello" 7 =
      (⟨some 5, 600, [(7, ⟨"locked", none⟩)]⟩,
       [.respondInteraction 7 ⟨.sentNotice, sentText, []⟩,
        .mutate [(7, ⟨"locked", none⟩)],
        .persist [(7, ⟨"locked", none⟩)]]) :=
  c9_confirm_unresolvable_channel ⟨some 5, 600, [(7, ⟨"open", none⟩)]⟩
    (fun _ => none) 7 "hello"
    (fun ch h => by simp [resolveChannel] at h)

/-- C2: saving a well-formed mapping (integer keys, no duplicates) to
the sessions file and loading it back into an empty in-memory mapping
yields the same mapping, integer keys restored from their stringified
decimal form. -/
theorem c2_save_load_round_trip (m : SessionMap) (h : wellFormed m) :
    _load_sessions_from_file (_persist_sessions_to_file m) = m := by
  have hx := load_save_aux m [] (by simpa [wellFormed] using h)
  simpa [_load_sessions_from_file] using hx

/-- C2 witness: a concrete two-user mapping (including a multi-digit
key) survives the save/load round trip. -/
theorem c2_save_load_round_trip_witness :
    wellFormed [(7, ⟨"open", none⟩), (1070, ⟨"resolved", some (.valid 100)⟩)]
    ∧ _load_sessions_from_file (_persist_sessions_to_file
        [(7, ⟨"open", none⟩), (1070, ⟨"resolved", some (.valid 100)⟩)]) =
      [(7, ⟨"open", none⟩), (1070, ⟨"resolved", some (.valid 100)⟩)] :=
  ⟨by decide, c2_save_load_round_trip
    [(7, ⟨"open", none⟩), (1070, ⟨"resolved", some (.valid 100)⟩)]
    (by decide)⟩

/-- C1 counterexample: in the staff-reply command the `'resolved'`
mutation is not immediately followed by the durability write — the
info-notice DM (an awaited send, hence a suspension and failure point)
sits between them, so the discipline predicate fails on its trace at a
concrete input. -/
theorem c1_staff_reply_gap_counterexample :
    mutationsPersisted
      (reply_modmail ⟨some 5, 600, []⟩ (fun _ => none) 7 "hi" 0).2 = false := by
  decide

/-- C1 (amended): every mutation of the session mapping in the inbound
message handler (creating an `'open'` session, clearing an expired
`'resolved'` session), in the confirm button (locking) and in the
confirmation timeout (deletion) is immediately followed by a durability
write of the full mapping, with no other effect between them; the staff
reply also persists the full mapping after setting `'resolved'`, but
with the info-notice DM send — a suspension and failure point — between
the mutation and the write. -/
theorem c1_mutation_persist_discipline :
    (∀ (cog : Cog) (msg : Message) (now : Int),
      mutationsPersisted (on_message cog msg now).2 = true)
    ∧ (∀ (cog : Cog) (gc : Nat → Option Channel) (vu : Nat) (mc : String)
        (iu : Nat), mutationsPersisted (confirm cog gc vu mc iu).2 = true)
    ∧ (∀ (cog : Cog) (vu : Nat),
        mutationsPersisted (on_timeout cog vu).2 = true)
    ∧ (∀ (cog : Cog) (gc : Nat → Option Channel) (uid : Nat) (resp : String)
        (now : Int), ∃ tl,
      (reply_modmail cog gc uid resp now).2 =
        .sendUser uid ⟨.modReply, resp ++ replySuffix, []⟩ ::
        .ctxSend "Reply sent." ::
        .mutate (mapInsert cog.modmail_sessions uid
          ⟨"resolved", some (.valid (now + cog.RESET_DELAY_SECONDS))⟩) ::
        .sendUser uid ⟨.infoNotice, infoText, []⟩ ::
        .persist (mapInsert cog.modmail_sessions uid
          ⟨"resolved", some (.valid (now + cog.RESET_DELAY_SECONDS))⟩) ::
        tl) := by
  refine ⟨?_, ?_, ?_, ?_⟩
  · intro cog msg now
    unfold on_message
    split
    · rfl
    split
    · rfl
    dsimp only
    split
    · rw [expiryCheck_mp_append]
      simp [mutationsPersisted_sendUser, mutationsPersisted_mutate_persist,
        mutationsPersisted_persist, mutationsPersisted_nil]
    · split
      · rw [expiryCheck_mp_append]
        simp [mutationsPersisted_sendUser, mutationsPersisted_nil]
      · split
        · rw [expiryCheck_mp_append]
          simp [mutationsPersisted_sendUser, mutationsPersisted_nil]
        · split
          · rw [expiryCheck_mp_append]
            simp [mutationsPersisted_sendUser, mutationsPersisted_nil]
          · simpa using expiryCheck_mp_append _ _ _ _ []
  · intro cog gc vu mc iu
    unfold confirm
    split
    · rfl
    dsimp only
    split
    · split
      · simp [mutationsPersisted_sendChannel, mutationsPersisted_respond,
          mutationsPersisted_mutate_persist, mutationsPersisted_persist,
          mutationsPersisted_nil]
      · simp [mutationsPersisted_respond,
          mutationsPersisted_mutate_persist, mutationsPersisted_persist,
          mutationsPersisted_nil]
    · simp [mutationsPersisted_respond,
        mutationsPersisted_mutate_persist, mutationsPersisted_persist,
        mutationsPersisted_nil]
  · intro cog vu
    simp [on_timeout, mutationsPersisted_mutate_persist,
      mutationsPersisted_persist, mutationsPersisted_nil]
  · intro cog gc uid resp now
    exact ⟨notifyChannelTr cog gc resp, rfl⟩

/-- C8 counterexample: a user with an `'open'` session DMs an empty
message carrying the attachment `"report.png"` and then confirms; the
configured channel resolves to a text channel, yet no effect of the
whole confirm-and-relay flow carries the attachment — the claim that
attachments are delivered to the staff destination fails at this
input. -/
theorem c8_attachments_never_relayed_counterexample :
    ((confirmFlow ⟨some 5, 600, [(7, ⟨"open", none⟩)]⟩
        (fun c => some ⟨c, true⟩) ⟨7, false, false, "", ["report.png"]⟩ 0).2.all
      (fun e => !(e.sentFiles.contains "report.png"))) = true := by
  decide

/-- C8 (amended): for an inbound user message the confirm-and-relay
flow delivers only the message's text content to the staff destination;
attachments are never relayed (the view captures `message.content`
alone, and no send passes files).  A message with empty content and
only attachments still goes through the flow, relaying just its (empty)
text. -/
theorem c8_only_text_content_relayed (cog : Cog)
    (gc : Nat → Option Channel) (msg : Message) (now : Int)
    (cid : Nat) (ch : Channel) (s : Session)
    (hg : msg.inGuild = false) (hb : msg.authorBot = false)
    (hcid : cog.modmail_channel_id = some cid) (hcid0 : cid ≠ 0)
    (hgc : gc cid = some ch) (htext : ch.isText = true)
    (hs : mapGet cog.modmail_sessions msg.authorId = some s)
    (hso : s.state = "open") :
    (confirmFlow cog gc msg now).2 =
      [.sendUser msg.authorId
        ⟨.confirmPrompt, confirmText msg.content, []⟩,
       .sendChannel ch.id ⟨.relayEmbed, msg.content, []⟩,
       .sendChannel ch.id
         ⟨.userIdNote, "User ID: " ++ toString msg.authorId, []⟩,
       .respondInteraction msg.authorId ⟨.sentNotice, sentText, []⟩,
       .mutate (mapInsert cog.modmail_sessions msg.authorId
         ⟨"locked", none⟩),
       .persist (mapInsert cog.modmail_sessions msg.authorId
         ⟨"locked", none⟩)]
    ∧ ∀ e ∈ (confirmFlow cog gc msg now).2, e.sentFiles = [] := by
  have h1 : (confirmFlow cog gc msg now).2 =
      [.sendUser msg.authorId
        ⟨.confirmPrompt, confirmText msg.content, []⟩,
       .sendChannel ch.id ⟨.relayEmbed, msg.content, []⟩,
       .sendChannel ch.id
         ⟨.userIdNote, "User ID: " ++ toString msg.authorId, []⟩,
       .respondInteraction msg.authorId ⟨.sentNotice, sentText, []⟩,
       .mutate (mapInsert cog.modmail_sessions msg.authorId
         ⟨"locked", none⟩),
       .persist (mapInsert cog.modmail_sessions msg.authorId
         ⟨"locked", none⟩)] := by
    simp [confirmFlow, on_message, expiryCheck, confirm, resolveChannel,
      truthyOptNat, hg, hb, hcid, hcid0, hgc, htext, hs, hso]
  refine ⟨h1, ?_⟩
  intro e he
  rw [h1] at he
  simp only [List.mem_cons, List.not_mem_nil, or_false] at he
  rcases he with rfl | rfl | rfl | rfl | rfl | rfl <;> rfl

/-- C8 witness: the attachment-only message from the counterexample
input, relayed with empty text. -/
theorem c8_only_text_content_relayed_witness :
    (confirmFlow ⟨some 5, 600, [(7, ⟨"open", none⟩)]⟩
        (fun c => some ⟨c, true⟩) ⟨7, false, false, "", ["report.png"]⟩ 0).2 =
      [.sendUser 7 ⟨.confirmPrompt, confirmText "", []⟩,
       .sendChannel 5 ⟨.relayEmbed, "", []⟩,
       .sendChannel 5 ⟨.userIdNote, "User ID: " ++ toString 7, []⟩,
       .respondInteraction 7 ⟨.sentNotice, sentText, []⟩,
       .mutate [(7, ⟨"locked", none⟩)],
       .persist [(7, ⟨"locked", none⟩)]]
    ∧ ∀ e ∈ (confirmFlow ⟨some 5, 600, [(7, ⟨"open", none⟩)]⟩
        (fun c => some ⟨c, true⟩) ⟨7, false, false, "", ["report.png"]⟩ 0).2,
      e.sentFiles = [] :=
  c8_only_text_content_relayed ⟨some 5, 600, [(7, ⟨"open", none⟩)]⟩
    (fun c => some ⟨c, true⟩) ⟨7, false, false, "", ["report.png"]⟩ 0
    5 ⟨5, true⟩ ⟨"open", none⟩ rfl rfl rfl (by decide) rfl rfl rfl rfl

/-- C3: `_send_with_retry` makes at most 3 total attempts; on a 429 it
waits the transport-advised duration when one is given (truthy), and
`2 ** attempt` plus the jitter draw when none is; throttled on attempts
1 and 2 and succeeding on attempt 3 yields exactly one delivered
message, and throttled on all 3 attempts re-raises the throttle error
to the caller with nothing delivered. -/
theorem c3_send_retry_cap_and_backoff :
    (∀ (behavior : Nat → SendOutcome) (jitter : Nat → ℚ),
      ((_send_with_retry behavior jitter).1.filter RetryEvent.isCall).length
        ≤ 3)
    ∧ (∀ (behavior : Nat → SendOutcome) (jitter : Nat → ℚ) (w : ℚ)
        (code1 code2 : Nat),
      behavior 0 = .httpExc 429 (some w) code1 → w ≠ 0 →
      behavior 1 = .httpExc 429 none code2 → behavior 2 = .ok →
      (_send_with_retry behavior jitter =
        ([.call 0, .sleep w, .call 1, .sleep (2 ^ 1 + jitter 1), .call 2,
          .deliver 2], .delivered)
       ∧ ((_send_with_retry behavior jitter).1.filter
          RetryEvent.isDeliver).length = 1))
    ∧ (∀ (behavior : Nat → SendOutcome) (jitter : Nat → ℚ)
        (ra : Nat → Option ℚ) (code : Nat → Nat),
      (∀ a, a < 3 → behavior a = .httpExc 429 (ra a) (code a)) →
      ((_send_with_retry behavior jitter).2 =
        .raised (.httpExc 429 (ra 2) (code 2))
       ∧ ((_send_with_retry behavior jitter).1.filter
          RetryEvent.isDeliver).length = 0)) := by
  refine ⟨?_, ?_, ?_⟩
  · intro behavior jitter
    exact retryFrom_call_bound behavior jitter 3 0
  · intro behavior jitter w code1 code2 h0 hw h1 h2
    have e1 : retryFrom behavior jitter 1 2 =
        ([.call 2, .deliver 2], .delivered) := by
      rw [retryFrom_succ behavior jitter 0 2, h2]
    have e2 : retryFrom behavior jitter 2 1 =
        (.call 1 :: .sleep (2 ^ 1 + jitter 1) ::
          [.call 2, .deliver 2], .delivered) := by
      rw [retryFrom_succ behavior jitter 1 1, h1]
      simp [e1]
    have e3 : _send_with_retry behavior jitter =
        ([.call 0, .sleep w, .call 1, .sleep (2 ^ 1 + jitter 1), .call 2,
          .deliver 2], .delivered) := by
      rw [_send_with_retry, retryFrom_succ behavior jitter 2 0, h0]
      simp [e2, hw]
    refine ⟨e3, ?_⟩
    rw [e3]
    simp [RetryEvent.isDeliver]
  · intro behavior jitter ra code h
    have h0 := h 0 (by norm_num)
    have h1 := h 1 (by norm_num)
    have h2 := h 2 (by norm_num)
    have e1 : retryFrom behavior jitter 1 2 =
        ([.call 2], .raised (.httpExc 429 (ra 2) (code 2))) := by
      rw [retryFrom_succ behavior jitter 0 2, h2]
      simp
    have e2 : retryFrom behavior jitter 2 1 =
        (.call 1 :: .sleep (match ra 1 with
            | some w => if w != 0 then w else 2 ^ 1 + jitter 1
            | none => 2 ^ 1 + jitter 1) :: [.call 2],
         .raised (.httpExc 429 (ra 2) (code 2))) := by
      rw [retryFrom_succ behavior jitter 1 1, h1]
      simp [e1]
    have e3 : _send_with_retry behavior jitter =
        (.call 0 :: .sleep (match ra 0 with
            | some w => if w != 0 then w else 2 ^ 0 + jitter 0
            | none => 2 ^ 0 + jitter 0) ::
          .call 1 :: .sleep (match ra 1 with
            | some w => if w != 0 then w else 2 ^ 1 + jitter 1
            | none => 2 ^ 1 + jitter 1) :: [.call 2],
         .raised (.httpExc 429 (ra 2) (code 2))) := by
      rw [_send_with_retry, retryFrom_succ behavior jitter 2 0, h0]
      simp [e2]
    rw [e3]
    constructor
    · rfl
    · simp [RetryEvent.isDeliver]

/-- C3 witness: the throttle-throttle-success behavior (advisory 5 on
attempt 0, none on attempt 1) delivers exactly once with the advised
then exponential waits; the always-throttled behavior surfaces the 429
after three attempts with nothing delivered. -/
theorem c3_send_retry_cap_and_backoff_witness :
    (_send_with_retry throttleTwiceBehavior halfJitter =
      ([.call 0, .sleep 5, .call 1, .sleep (2 ^ 1 + halfJitter 1), .call 2,
        .deliver 2], .delivered)
     ∧ ((_send_with_retry throttleTwiceBehavior halfJitter).1.filter
        RetryEvent.isDeliver).length = 1)
    ∧ ((_send_with_retry alwaysThrottledBehavior halfJitter).2 =
        .raised (.httpExc 429 none 2)
     ∧ ((_send_with_retry alwaysThrottledBehavior halfJitter).1.filter
        RetryEvent.isDeliver).length = 0) :=
  ⟨c3_send_retry_cap_and_backoff.2.1 throttleTwiceBehavior halfJitter 5 11 12
    rfl (by norm_num) rfl rfl,
   c3_send_retry_cap_and_backoff.2.2 alwaysThrottledBehavior halfJitter
    (fun _ => none) (fun a => a) (fun a ha => rfl)⟩

end ModMail
